import Mathlib

/-!
Verification development for the `verify` pipeline of
`src/packages/connect/src/messages/verify.ts` (Farcaster Connect message
verification).

The TypeScript code is shallowly embedded: `neverthrow`'s `Result`/`ResultAsync`
becomes the `Result` inductive below (a resolved `ResultAsync` is just a
`Result`, since the pipeline awaits every asynchronous step in order), JS
promise rejection becomes the `err` side of a `Result JsError`, and JS `BigInt`
becomes `Int`.  The pieces of the repository that `verify.ts` imports but that
are not part of the sources here (`validate` from `messages/validate.ts`, the
`siwe` library's `message.verify`) enter as explicit function parameters of
`verify`, and `parseResources` is modelled from the spec.
-/

namespace Connect

/-- Hexadecimal address string, the TS template type `0x${string}`. -/
abbrev Hex := String

/-- A JavaScript exception, modelled by its message (`Error.message`). -/
abbrev JsError := String

/-- The `neverthrow` result type used throughout `verify.ts`: `ok`/`err`. -/
inductive Result (ε α : Type) where
  | err (e : ε)
  | ok (value : α)
deriving DecidableEq

/-- `neverthrow`'s `andThen`: propagate `err`, feed `ok` into the next step. -/
def Result.andThen {ε α β : Type} : Result ε α → (α → Result ε β) → Result ε β
  | .err e, _ => .err e
  | .ok a, f => f a

/-- Error kinds of `ConnectError` (from `errors.ts`, fixed by the spec's
taxonomy). -/
inductive ErrorKind where
  | unauthorized
  | unavailable
  | malformed
  | bad_request
  | invalid_parameter
deriving DecidableEq

/-- `ConnectError`: tagged error with a kind and a human-readable message.
`new ConnectError(kind, e as Error)` stores the wrapped error's message. -/
structure ConnectError where
  kind : ErrorKind
  message : String
deriving DecidableEq

/-- `ConnectResult<T>` from `errors.ts`; `ConnectAsyncResult<T>` is the same
once the promise has been awaited. -/
abbrev ConnectResult (α : Type) := Result ConnectError α

/-- `ResultAsync.fromPromise`: a resolved promise becomes `ok`, a rejected
promise is caught and mapped through the error converter. -/
def fromPromise {α : Type} (p : Result JsError α) (onError : JsError → ConnectError) :
    Result ConnectError α :=
  match p with
  | .err e => .err (onError e)
  | .ok a => .ok a

/-- The parsed SIWE message (`SiweMessage` from the `siwe` library): the
fields of the standardized sign-in message format. -/
structure SiweMessage where
  domain : String
  address : String
  statement : Option String
  uri : String
  version : String
  chainId : Nat
  nonce : String
  issuedAt : String
  expirationTime : Option String
  resources : List String
deriving DecidableEq

/-- `SiweError` from the `siwe` library: `new SiweError(type, expected,
received)`. -/
structure SiweError where
  type : String
  expected : Option String
  received : Option String
deriving DecidableEq

/-- `SiweResponse` from the `siwe` library: the outcome of cryptographic
verification. -/
structure SiweResponse where
  success : Bool
  error : Option SiweError
  data : SiweMessage
deriving DecidableEq

/-- Modelled from the spec: `FarcasterResourceParams` lives in
`messages/build.ts`, which is not among the sources.  Per the spec's
ResourceClaims it carries at minimum the claimed numeric identifier `fid`
(a JS number holding an unsigned integer, here `Int` so that the `BigInt`
comparison below is full precision). -/
structure FarcasterResourceParams where
  fid : Int
deriving DecidableEq

/-- The TS intersection type `SiweResponse & FarcasterResourceParams`:
the `SiweResponse` fields together with the merged resource claims. -/
structure FidSiweResponse where
  success : Bool
  error : Option SiweError
  data : SiweMessage
  fid : Int
deriving DecidableEq

/-- `VerifyResponse = Omit<SiweResponse, "error"> & FarcasterResourceParams`:
the final output, the response fields with the internal `error` field
removed. -/
structure VerifyResponse where
  success : Bool
  data : SiweMessage
  fid : Int
deriving DecidableEq

/-- An `ethers` provider handed to the SIWE verifier for contract-account
signature checks; its internals are irrelevant here, only its presence. -/
structure Provider where
  chainId : Nat
deriving DecidableEq

/-- `SignInOpts`: the options record of `verify`. -/
structure SignInOpts where
  getFid : Hex → Result JsError Int
  provider : Option Provider

/-- `voidVerifyFid`: the default fid verifier, a promise that always rejects. -/
def voidVerifyFid : Hex → Result JsError Int :=
  fun _ => .err "Not implemented: Must provide an fid verifier"

/-- The default value of the `options` parameter of `verify`:
`{ getFid: voidVerifyFid }`, with no provider. -/
def defaultSignInOpts : SignInOpts :=
  { getFid := voidVerifyFid, provider := none }

/-- Drop `pre` from the front of `l`, or fail if `pre` is not a prefix. -/
def dropLeading : List Char → List Char → Option (List Char)
  | [], ys => some ys
  | _ :: _, [] => none
  | x :: xs, y :: ys => if x = y then dropLeading xs ys else none

/-- Read a nonempty all-digit character list as a natural number. -/
def digitsToNat (cs : List Char) : Option Nat :=
  if cs = [] then none
  else if cs.all (fun c => c.isDigit) then
    some (cs.foldl (fun n c => 10 * n + (c.toNat - 48)) 0)
  else none

/-- Modelled from the spec: recognize one Farcaster fid resource entry
(`farcaster://fid/<digits>`), yielding its claimed fid; any other entry is
ignored (unrecognized entries are tolerated). -/
def parseFidResource (s : String) : Option Nat :=
  match dropLeading "farcaster://fid/".data s.data with
  | some rest => digitsToNat rest
  | none => none

/-- Modelled from the spec: `parseResources` lives in `messages/validate.ts`,
which is not among the sources.  It scans the message's resource URI list for
a Farcaster fid resource entry; a missing required identifier claim is a
`malformed` error, and additional unrecognized entries are tolerated. -/
def parseResources (data : SiweMessage) : ConnectResult FarcasterResourceParams :=
  match (data.resources.filterMap parseFidResource) with
  | fid :: _ => .ok { fid := Int.ofNat fid }
  | [] => .err { kind := .malformed, message := "No fid resource provided" }

/-- `validateNonce`: pure equality check of the message nonce against the
expected nonce; pass-through on success. -/
def validateNonce (message : SiweMessage) (nonce : String) : ConnectResult SiweMessage :=
  if message.nonce ≠ nonce then
    .err { kind := .unauthorized, message := "Invalid nonce" }
  else
    .ok message

/-- `validateDomain`: pure equality check of the message domain against the
expected domain; pass-through on success. -/
def validateDomain (message : SiweMessage) (domain : String) : ConnectResult SiweMessage :=
  if message.domain ≠ domain then
    .err { kind := .unauthorized, message := "Invalid domain" }
  else
    .ok message

/-- `verifySiweMessage`: delegate to the third-party `message.verify` (the
parameter `siweVerify`), wrapping it with `ResultAsync.fromPromise` so that a
rejection becomes `ConnectError("unauthorized", e)`. -/
def verifySiweMessage
    (siweVerify : SiweMessage → String → Option Provider → Result JsError SiweResponse)
    (message : SiweMessage) (signature : String) (provider : Option Provider) :
    ConnectResult SiweResponse :=
  fromPromise (siweVerify message signature provider)
    (fun e => { kind := .unauthorized, message := e })

/-- `mergeResources`: parse the resource claims out of `response.data` and
spread them together with the response fields (`{ ...resources, ...response }`,
so the response's own fields win on any collision). -/
def mergeResources (response : SiweResponse) : ConnectResult FidSiweResponse :=
  (parseResources response.data).andThen fun resources =>
    .ok { success := response.success, error := response.error,
          data := response.data, fid := resources.fid }

/-- The ownership error message built by `verifyFidOwner` on a mismatch. -/
def ownershipMsg (signer : Hex) (fid : Int) : String :=
  "Invalid resource: signer " ++ signer ++ " does not own fid " ++ toString fid ++ "."

/-- `verifyFidOwner`: resolve the fid owned by the verified signer address via
the caller-supplied oracle.  A rejected oracle promise is caught and mapped to
`ConnectError("unavailable", e)`.  A resolved fid that differs from the claimed
fid (compared with `BigInt` equality) does NOT produce an `err`: it sets
`success := false` and attaches a structured `SiweError`. -/
def verifyFidOwner (response : FidSiweResponse)
    (fidVerifier : Hex → Result JsError Int) : ConnectResult FidSiweResponse :=
  let signer := response.data.address
  (fromPromise (fidVerifier signer)
      (fun e => { kind := .unavailable, message := e })).andThen fun fid =>
    if fid ≠ response.fid then
      .ok { response with
            success := false,
            error := some { type := ownershipMsg signer response.fid,
                            expected := some (toString response.fid),
                            received := some (toString fid) } }
    else
      .ok response

/-- The `error?.type ?? fallback` expression of `verify`. -/
def errDetail (error : Option SiweError) (fallback : String) : String :=
  match error with
  | some e => e.type
  | none => fallback

/-- `verify`: the verification orchestrator of `verify.ts`.

The repository code not among the sources enters as parameters: `validate`
stands for `messages/validate.ts`'s structural validation (over an abstract
input type `μ`, TS's `string | Partial<SiweMessage>`), and `siweVerify` stands
for the `siwe` library's `message.verify({ signature }, { provider,
suppressExceptions: true })`.

In the TS source `verifyFidOwner` mutates the response object in place, so
after step 6 the binding `siwe.value` aliases `fid.value`; the error detail
read on the ownership-failure path therefore comes from the updated response,
which is what the pure embedding reads from `fidVal`. -/
def verify {μ : Type} (validate : μ → ConnectResult SiweMessage)
    (siweVerify : SiweMessage → String → Option Provider → Result JsError SiweResponse)
    (nonce : String) (domain : String) (message : μ) (signature : String)
    (options : SignInOpts) : ConnectResult VerifyResponse :=
  match ((validate message).andThen fun m => validateNonce m nonce).andThen
      (fun m => validateDomain m domain) with
  | .err e => .err e
  | .ok validMsg =>
    match (verifySiweMessage siweVerify validMsg signature options.provider).andThen
        mergeResources with
    | .err e => .err e
    | .ok siweVal =>
      if !siweVal.success then
        .err { kind := .unauthorized,
               message := errDetail siweVal.error "Failed to verify SIWE message" }
      else
        match verifyFidOwner siweVal options.getFid with
        | .err e => .err e
        | .ok fidVal =>
          if !fidVal.success then
            .err { kind := .unauthorized,
                   message := errDetail fidVal.error "Failed to validate fid owner" }
          else
            .ok { success := fidVal.success, data := fidVal.data, fid := fidVal.fid }

/-- Whether `needle` occurs at the start of `hay`. -/
def leadsWith : List Char → List Char → Bool
  | [], _ => true
  | _ :: _, [] => false
  | x :: xs, y :: ys => x = y && leadsWith xs ys

/-- Whether `needle` occurs contiguously anywhere inside `hay`. -/
def containsSeq (needle : List Char) : List Char → Bool
  | [] => leadsWith needle []
  | y :: ys => leadsWith needle (y :: ys) || containsSeq needle ys

/-- String-level wrapper for `containsSeq`: substring occurrence. -/
def containsStr (needle hay : String) : Bool :=
  containsSeq needle.data hay.data



/-- A sample parsed sign-in message used by the concrete instantiations. -/
def sampleMessage : SiweMessage :=
  { domain := "example.com", address := "0xabc", statement := some "Farcaster Connect",
    uri := "https://example.com/login", version := "1", chainId := 10, nonce := "n1",
    issuedAt := "2023-12-01T00:00:00.000Z", expirationTime := none,
    resources := ["farcaster://fid/42"] }

/-- The sample message with no resource entries, so resource parsing fails. -/
def noResourceMessage : SiweMessage :=
  { sampleMessage with resources := [] }

/-- A structural validator instance that accepts an already-parsed message. -/
def idValidate : SiweMessage → ConnectResult SiweMessage := fun m => .ok m

/-- A SIWE verifier instance whose outcome is success. -/
def okSiweVerify : SiweMessage → String → Option Provider → Result JsError SiweResponse :=
  fun m _ _ => .ok { success := true, error := none, data := m }

/-- A SIWE verifier instance that resolves with an unsuccessful outcome. -/
def badOutcomeSiwe : SiweMessage → String → Option Provider → Result JsError SiweResponse :=
  fun m _ _ => .ok { success := false,
                     error := some { type := "SigError", expected := none, received := none },
                     data := m }

/-- A SIWE verifier instance whose promise rejects. -/
def throwingSiwe : SiweMessage → String → Option Provider → Result JsError SiweResponse :=
  fun _ _ _ => .err "boom"

/-- Options with an oracle resolving fid 42 for every address. -/
def sampleOpts : SignInOpts := { getFid := fun _ => .ok 42, provider := none }

/-- Options with an oracle resolving fid 43 for every address. -/
def opts43 : SignInOpts := { getFid := fun _ => .ok 43, provider := none }

/-- Options with an oracle whose promise rejects. -/
def rejectOpts : SignInOpts := { getFid := fun _ => .err "down", provider := none }

/-! ### Properties -/



theorem Result.andThen_eq_ok {ε α β : Type} {x : Result ε α} {f : α → Result ε β} {b : β} :
    x.andThen f = .ok b ↔ ∃ a, x = .ok a ∧ f a = .ok b := by
  cases x <;> simp [Result.andThen]

theorem Result.andThen_eq_err {ε α β : Type} {x : Result ε α} {f : α → Result ε β} {e : ε} :
    x.andThen f = .err e ↔ x = .err e ∨ ∃ a, x = .ok a ∧ f a = .err e := by
  cases x <;> simp [Result.andThen]

theorem validateNonce_eq_ok {m m' : SiweMessage} {nonce : String} :
    validateNonce m nonce = .ok m' ↔ m.nonce = nonce ∧ m' = m := by
  unfold validateNonce
  split
  · simp_all
  · simp_all [eq_comm]

theorem validateDomain_eq_ok {m m' : SiweMessage} {domain : String} :
    validateDomain m domain = .ok m' ↔ m.domain = domain ∧ m' = m := by
  unfold validateDomain
  split
  · simp_all
  · simp_all [eq_comm]

theorem verifySiweMessage_eq_ok
    {siweVerify : SiweMessage → String → Option Provider → Result JsError SiweResponse}
    {m : SiweMessage} {signature : String} {p : Option Provider} {sr : SiweResponse} :
    verifySiweMessage siweVerify m signature p = .ok sr ↔ siweVerify m signature p = .ok sr := by
  unfold verifySiweMessage fromPromise
  split <;> simp_all

theorem mergeResources_err_kind {sr : SiweResponse} {e : ConnectError}
    (h : mergeResources sr = .err e) : e.kind = .malformed := by
  unfold mergeResources at h
  rcases Result.andThen_eq_err.mp h with h' | ⟨a, -, h'⟩
  · unfold parseResources at h'
    split at h'
    · cases h'
    · cases h'; rfl
  · cases h'

theorem verify_ok_inv {μ : Type} (validate : μ → ConnectResult SiweMessage)
    (siweVerify : SiweMessage → String → Option Provider → Result JsError SiweResponse)
    (nonce domain : String) (message : μ) (signature : String) (options : SignInOpts)
    (r : VerifyResponse)
    (h : verify validate siweVerify nonce domain message signature options = .ok r) :
    ∃ m sr s f, validate message = .ok m ∧ m.nonce = nonce ∧ m.domain = domain ∧
      siweVerify m signature options.provider = .ok sr ∧ mergeResources sr = .ok s ∧
      s.success = true ∧ verifyFidOwner s options.getFid = .ok f ∧ f.success = true ∧
      r = { success := f.success, data := f.data, fid := f.fid } := by
  unfold verify at h
  split at h
  · exact absurd h (by simp)
  next validMsg hvalid =>
    split at h
    · exact absurd h (by simp)
    next siweVal hsiwe =>
      split at h
      · exact absurd h (by simp)
      next hsucc =>
        split at h
        · exact absurd h (by simp)
        next fidVal hfid =>
          split at h
          · exact absurd h (by simp)
          next hfsucc =>
            rcases Result.andThen_eq_ok.mp hvalid with ⟨m1, hv1, hdom⟩
            rcases Result.andThen_eq_ok.mp hv1 with ⟨m0, hv0, hnon⟩
            rcases validateNonce_eq_ok.mp hnon with ⟨hn, rfl⟩
            rcases validateDomain_eq_ok.mp hdom with ⟨hd, rfl⟩
            rcases Result.andThen_eq_ok.mp hsiwe with ⟨sr, hsr, hmerge⟩
            refine ⟨validMsg, sr, siweVal, fidVal, hv0, hn, hd,
              verifySiweMessage_eq_ok.mp hsr, hmerge, ?_, hfid, ?_, ?_⟩
            · simpa using hsucc
            · simpa using hfsucc
            · cases h; rfl

theorem verifyFidOwner_reject {s : FidSiweResponse} {fv : Hex → Result JsError Int}
    {je : JsError} (hg : fv s.data.address = .err je) :
    verifyFidOwner s fv = .err { kind := .unavailable, message := je } := by
  unfold verifyFidOwner fromPromise
  simp [hg, Result.andThen]

/-- C1: `verify` returns a success `VerifyResponse` only if structural
validation, nonce validation, domain validation, signature verification with a
successful outcome, resource parsing/merging, and the fid ownership check all
succeeded; otherwise it returns an error value, and no partial response is
returned (the response is exactly the stripped final outcome). -/
theorem verify_ok_requires_all_checks {μ : Type} (validate : μ → ConnectResult SiweMessage)
    (siweVerify : SiweMessage → String → Option Provider → Result JsError SiweResponse)
    (nonce domain : String) (message : μ) (signature : String) (options : SignInOpts) :
    (∃ e, verify validate siweVerify nonce domain message signature options = .err e) ∨
    (∃ r m sr s f, verify validate siweVerify nonce domain message signature options = .ok r ∧
      validate message = .ok m ∧ m.nonce = nonce ∧ m.domain = domain ∧
      siweVerify m signature options.provider = .ok sr ∧ mergeResources sr = .ok s ∧
      s.success = true ∧ verifyFidOwner s options.getFid = .ok f ∧ f.success = true ∧
      r = { success := f.success, data := f.data, fid := f.fid }) := by
  cases hres : verify validate siweVerify nonce domain message signature options with
  | err e => exact Or.inl ⟨e, rfl⟩
  | ok r =>
    rcases verify_ok_inv _ _ _ _ _ _ _ _ hres with ⟨m, sr, s, f, h1, h2, h3, h4, h5, h6, h7, h8, h9⟩
    exact Or.inr ⟨r, m, sr, s, f, rfl, h1, h2, h3, h4, h5, h6, h7, h8, h9⟩

/-- C2 (amended): when signature verification resolves with
`outcome.success = false` and the resource merge succeeds, `verify` fails with
`unauthorized` using the embedded error detail; but resources are merged
before the success flag is checked, so a resource-parse failure yields the
`malformed` error regardless of the outcome's success flag. -/
theorem success_flag_checked_after_merge {μ : Type} (validate : μ → ConnectResult SiweMessage)
    (siweVerify : SiweMessage → String → Option Provider → Result JsError SiweResponse)
    (nonce domain : String) (message : μ) (signature : String) (options : SignInOpts)
    (m : SiweMessage) (hv : validate message = .ok m)
    (hn : m.nonce = nonce) (hd : m.domain = domain) :
    (∀ sr s, siweVerify m signature options.provider = .ok sr → mergeResources sr = .ok s →
      s.success = false →
      verify validate siweVerify nonce domain message signature options =
        .err { kind := .unauthorized,
               message := errDetail s.error "Failed to verify SIWE message" }) ∧
    (∀ sr e, siweVerify m signature options.provider = .ok sr → mergeResources sr = .err e →
      verify validate siweVerify nonce domain message signature options = .err e ∧
      e.kind = .malformed) := by
  constructor
  · intro sr s hsv hm hs
    unfold verify
    rw [hv]
    simp [Result.andThen, validateNonce, validateDomain, hn, hd, verifySiweMessage,
          fromPromise, hsv, hm, hs]
  · intro sr e hsv hm
    refine ⟨?_, mergeResources_err_kind hm⟩
    unfold verify
    rw [hv]
    simp [Result.andThen, validateNonce, validateDomain, hn, hd, verifySiweMessage,
          fromPromise, hsv, hm]

/-- C2 counterexample: a message whose signature outcome has
`success = false` and whose resources fail to parse makes `verify` return a
`malformed` error, not the `unauthorized` error the claim requires for every
unsuccessful signature outcome. -/
theorem malformed_despite_unsuccessful_signature :
    verify idValidate badOutcomeSiwe "n1" "example.com" noResourceMessage "0xsig" sampleOpts
      = .err { kind := .malformed, message := "No fid resource provided" } ∧
    ErrorKind.malformed ≠ ErrorKind.unauthorized := by
  exact ⟨by decide, by decide⟩

/-- C2 witness: concrete runs of both halves of the amended claim. -/
theorem success_flag_checked_after_merge_witness :
    verify idValidate badOutcomeSiwe "n1" "example.com" sampleMessage "0xsig" sampleOpts
      = .err { kind := .unauthorized, message := "SigError" } ∧
    verify idValidate badOutcomeSiwe "n1" "example.com" noResourceMessage "0xsig" sampleOpts
      = .err { kind := .malformed, message := "No fid resource provided" } := by
  constructor
  · exact (success_flag_checked_after_merge idValidate badOutcomeSiwe "n1" "example.com"
      sampleMessage "0xsig" sampleOpts sampleMessage rfl rfl rfl).1 _ _ rfl rfl rfl
  · exact ((success_flag_checked_after_merge idValidate badOutcomeSiwe "n1" "example.com"
      noResourceMessage "0xsig" sampleOpts noResourceMessage rfl rfl rfl).2 _
      { kind := .malformed, message := "No fid resource provided" } rfl rfl).1



/-- C3: `verify` is total — for every input, including inputs on which the
third-party SIWE verification promise or the oracle promise rejects, it
returns a result value (an `ok` response or an `err` with a `ConnectError`);
a rejected SIWE verification is converted to an `unauthorized` error and a
rejected oracle call to an `unavailable` error. -/
theorem verify_total_and_converts_exceptions {μ : Type}
    (validate : μ → ConnectResult SiweMessage)
    (siweVerify : SiweMessage → String → Option Provider → Result JsError SiweResponse)
    (nonce domain : String) (message : μ) (signature : String) (options : SignInOpts) :
    ((∃ r, verify validate siweVerify nonce domain message signature options = .ok r) ∨
     (∃ e, verify validate siweVerify nonce domain message signature options = .err e)) ∧
    (∀ m je, validate message = .ok m → m.nonce = nonce → m.domain = domain →
      siweVerify m signature options.provider = .err je →
      verify validate siweVerify nonce domain message signature options =
        .err { kind := .unauthorized, message := je }) ∧
    (∀ m sr s je, validate message = .ok m → m.nonce = nonce → m.domain = domain →
      siweVerify m signature options.provider = .ok sr → mergeResources sr = .ok s →
      s.success = true → options.getFid s.data.address = .err je →
      verify validate siweVerify nonce domain message signature options =
        .err { kind := .unavailable, message := je }) := by
  refine ⟨?_, ?_, ?_⟩
  · cases hres : verify validate siweVerify nonce domain message signature options with
    | ok r => exact Or.inl ⟨r, rfl⟩
    | err e => exact Or.inr ⟨e, rfl⟩
  · intro m je hv hn hd hsv
    unfold verify
    rw [hv]
    simp [Result.andThen, validateNonce, validateDomain, hn, hd, verifySiweMessage,
          fromPromise, hsv]
  · intro m sr s je hv hn hd hsv hm hs hg
    unfold verify
    rw [hv]
    simp [Result.andThen, validateNonce, validateDomain, hn, hd, verifySiweMessage,
          fromPromise, hsv, hm, hs, verifyFidOwner, hg]

/-- C3 witness: a rejecting SIWE verifier yields `unauthorized` and a
rejecting oracle yields `unavailable`, on concrete inputs. -/
theorem verify_total_and_converts_exceptions_witness :
    verify idValidate throwingSiwe "n1" "example.com" sampleMessage "0xsig" sampleOpts
      = .err { kind := .unauthorized, message := "boom" } ∧
    verify idValidate okSiweVerify "n1" "example.com" sampleMessage "0xsig" rejectOpts
      = .err { kind := .unavailable, message := "down" } := by
  constructor
  · exact (verify_total_and_converts_exceptions idValidate throwingSiwe "n1" "example.com"
      sampleMessage "0xsig" sampleOpts).2.1 sampleMessage "boom" rfl rfl rfl rfl
  · exact (verify_total_and_converts_exceptions idValidate okSiweVerify "n1" "example.com"
      sampleMessage "0xsig" rejectOpts).2.2 sampleMessage
      { success := true, error := none, data := sampleMessage }
      { success := true, error := none, data := sampleMessage, fid := 42 }
      "down" rfl rfl rfl rfl rfl rfl rfl

/-- C4: for a structurally valid message with matching nonce and domain, a
successful signature outcome, parseable resource claims, and an oracle
resolving exactly the claimed fid, `verify` returns the success response:
the verified outcome's data merged with the parsed claims, error field
removed. -/
theorem verify_roundtrip_success {μ : Type} (validate : μ → ConnectResult SiweMessage)
    (siweVerify : SiweMessage → String → Option Provider → Result JsError SiweResponse)
    (nonce domain : String) (message : μ) (signature : String) (options : SignInOpts)
    (m : SiweMessage) (sr : SiweResponse) (rc : FarcasterResourceParams)
    (hv : validate message = .ok m) (hn : m.nonce = nonce) (hd : m.domain = domain)
    (hsv : siweVerify m signature options.provider = .ok sr) (hs : sr.success = true)
    (hp : parseResources sr.data = .ok rc)
    (hg : options.getFid sr.data.address = .ok rc.fid) :
    verify validate siweVerify nonce domain message signature options =
      .ok { success := true, data := sr.data, fid := rc.fid } := by
  unfold verify
  rw [hv]
  simp [Result.andThen, validateNonce, validateDomain, hn, hd, verifySiweMessage,
        fromPromise, hsv, mergeResources, hp, hs, verifyFidOwner, hg]

/-- C4 witness: the concrete round trip succeeds with fid 42. -/
theorem verify_roundtrip_success_witness :
    verify idValidate okSiweVerify "n1" "example.com" sampleMessage "0xsig" sampleOpts
      = .ok { success := true, data := sampleMessage, fid := 42 } := by
  exact verify_roundtrip_success idValidate okSiweVerify "n1" "example.com" sampleMessage
    "0xsig" sampleOpts sampleMessage { success := true, error := none, data := sampleMessage }
    { fid := 42 } rfl rfl rfl rfl rfl rfl rfl



/-- C5 (amended): on a resolved-fid mismatch `verifyFidOwner` does not return
an error result — it returns the response with `success := false` and a
structured ownership error whose `expected`/`received` fields carry the
claimed and resolved fids — and `verify` then fails with `unauthorized` whose
message is the ownership error text, which names the signer address and the
claimed fid (the resolved fid appears only in the structured error's
`received` field, not in the returned message). -/
theorem fid_mismatch_unauthorized {μ : Type} (validate : μ → ConnectResult SiweMessage)
    (siweVerify : SiweMessage → String → Option Provider → Result JsError SiweResponse)
    (nonce domain : String) (message : μ) (signature : String) (options : SignInOpts)
    (m : SiweMessage) (sr : SiweResponse) (s : FidSiweResponse) (fidR : Int)
    (hv : validate message = .ok m) (hn : m.nonce = nonce) (hd : m.domain = domain)
    (hsv : siweVerify m signature options.provider = .ok sr)
    (hm : mergeResources sr = .ok s) (hs : s.success = true)
    (hg : options.getFid s.data.address = .ok fidR) (hne : fidR ≠ s.fid) :
    verifyFidOwner s options.getFid =
      .ok { s with
            success := false,
            error := some { type := ownershipMsg s.data.address s.fid,
                            expected := some (toString s.fid),
                            received := some (toString fidR) } } ∧
    verify validate siweVerify nonce domain message signature options =
      .err { kind := .unauthorized, message := ownershipMsg s.data.address s.fid } := by
  have hfo : verifyFidOwner s options.getFid =
      .ok { s with
            success := false,
            error := some { type := ownershipMsg s.data.address s.fid,
                            expected := some (toString s.fid),
                            received := some (toString fidR) } } := by
    unfold verifyFidOwner fromPromise
    simp [hg, Result.andThen, hne]
  refine ⟨hfo, ?_⟩
  unfold verify
  rw [hv]
  simp [Result.andThen, validateNonce, validateDomain, hn, hd, verifySiweMessage,
        fromPromise, hsv, hm, hs, hfo, errDetail]

/-- C5 counterexample: with claimed fid 42 and resolved fid 43 the returned
error message is exactly the ownership error text; it contains the claimed
fid 42 but does not contain the resolved fid 43, so the message does not
mention both fid values. -/
theorem fid_mismatch_message_omits_resolved_fid :
    verify idValidate okSiweVerify "n1" "example.com" sampleMessage "0xsig" opts43
      = .err { kind := .unauthorized,
               message := "Invalid resource: signer 0xabc does not own fid 42." } ∧
    containsStr "42" "Invalid resource: signer 0xabc does not own fid 42." = true ∧
    containsStr "43" "Invalid resource: signer 0xabc does not own fid 42." = false := by
  refine ⟨by decide, by decide, by decide⟩

/-- C5 witness: the amended claim at the concrete mismatch run. -/
theorem fid_mismatch_unauthorized_witness :
    verifyFidOwner { success := true, error := none, data := sampleMessage, fid := 42 }
        opts43.getFid =
      .ok { success := false,
            error := some { type := "Invalid resource: signer 0xabc does not own fid 42.",
                            expected := some "42", received := some "43" },
            data := sampleMessage, fid := 42 } ∧
    verify idValidate okSiweVerify "n1" "example.com" sampleMessage "0xsig" opts43
      = .err { kind := .unauthorized,
               message := "Invalid resource: signer 0xabc does not own fid 42." } := by
  exact fid_mismatch_unauthorized idValidate okSiweVerify "n1" "example.com" sampleMessage
    "0xsig" opts43 sampleMessage { success := true, error := none, data := sampleMessage }
    { success := true, error := none, data := sampleMessage, fid := 42 } 43
    rfl rfl rfl rfl rfl rfl rfl (by decide)

/-- C6: when the ownership oracle's promise rejects, `verify` fails with an
`unavailable` error carrying the rejection, and no fid comparison is
attempted: `verifyFidOwner` returns the same `unavailable` error whatever the
claimed fid is. -/
theorem oracle_rejection_unavailable {μ : Type} (validate : μ → ConnectResult SiweMessage)
    (siweVerify : SiweMessage → String → Option Provider → Result JsError SiweResponse)
    (nonce domain : String) (message : μ) (signature : String) (options : SignInOpts)
    (m : SiweMessage) (sr : SiweResponse) (s : FidSiweResponse) (je : JsError)
    (hv : validate message = .ok m) (hn : m.nonce = nonce) (hd : m.domain = domain)
    (hsv : siweVerify m signature options.provider = .ok sr)
    (hm : mergeResources sr = .ok s) (hs : s.success = true)
    (hg : options.getFid s.data.address = .err je) :
    verify validate siweVerify nonce domain message signature options =
      .err { kind := .unavailable, message := je } ∧
    (∀ fid' : Int, verifyFidOwner { s with fid := fid' } options.getFid =
      .err { kind := .unavailable, message := je }) := by
  constructor
  · unfold verify
    rw [hv]
    simp [Result.andThen, validateNonce, validateDomain, hn, hd, verifySiweMessage,
          fromPromise, hsv, hm, hs, verifyFidOwner, hg]
  · intro fid'
    exact verifyFidOwner_reject hg

/-- C6 witness: the concrete rejecting oracle yields `unavailable` and the
fid-independence instance at fid 7. -/
theorem oracle_rejection_unavailable_witness :
    verify idValidate okSiweVerify "n1" "example.com" sampleMessage "0xsig" rejectOpts
      = .err { kind := .unavailable, message := "down" } ∧
    verifyFidOwner { success := true, error := none, data := sampleMessage, fid := 7 }
        rejectOpts.getFid = .err { kind := .unavailable, message := "down" } := by
  have h := oracle_rejection_unavailable idValidate okSiweVerify "n1" "example.com"
    sampleMessage "0xsig" rejectOpts sampleMessage
    { success := true, error := none, data := sampleMessage }
    { success := true, error := none, data := sampleMessage, fid := 42 }
    "down" rfl rfl rfl rfl rfl rfl rfl
  exact ⟨h.1, h.2 7⟩



/-- C7: a nonce mismatch (exact, case-sensitive string comparison) makes
`verify` fail with `unauthorized` / "Invalid nonce", and a domain mismatch
with `unauthorized` / "Invalid domain", for every SIWE verifier and every
options record — so signature validity is irrelevant and the ownership
oracle is never consulted. -/
theorem nonce_domain_mismatch_unauthorized {μ : Type}
    (validate : μ → ConnectResult SiweMessage)
    (siweVerify : SiweMessage → String → Option Provider → Result JsError SiweResponse)
    (nonce domain : String) (message : μ) (signature : String) (options : SignInOpts)
    (m : SiweMessage) (hv : validate message = .ok m) :
    (m.nonce ≠ nonce →
      verify validate siweVerify nonce domain message signature options =
        .err { kind := .unauthorized, message := "Invalid nonce" }) ∧
    (m.nonce = nonce → m.domain ≠ domain →
      verify validate siweVerify nonce domain message signature options =
        .err { kind := .unauthorized, message := "Invalid domain" }) := by
  constructor
  · intro hn
    unfold verify
    rw [hv]
    simp [Result.andThen, validateNonce, hn]
  · intro hn hd
    unfold verify
    rw [hv]
    simp [Result.andThen, validateNonce, validateDomain, hn, hd]

/-- C7 witness: concrete nonce and domain mismatches, one with a rejecting
oracle, showing the fixed error values. -/
theorem nonce_domain_mismatch_unauthorized_witness :
    verify idValidate okSiweVerify "n2" "example.com" sampleMessage "0xsig" rejectOpts
      = .err { kind := .unauthorized, message := "Invalid nonce" } ∧
    verify idValidate okSiweVerify "n1" "other.com" sampleMessage "0xsig" rejectOpts
      = .err { kind := .unauthorized, message := "Invalid domain" } := by
  constructor
  · exact (nonce_domain_mismatch_unauthorized idValidate okSiweVerify "n2" "example.com"
      sampleMessage "0xsig" rejectOpts sampleMessage rfl).1 (by decide)
  · exact (nonce_domain_mismatch_unauthorized idValidate okSiweVerify "n1" "other.com"
      sampleMessage "0xsig" rejectOpts sampleMessage rfl).2 rfl (by decide)

/-- C8: the ownership check compares the resolved and the claimed fid with
exact integer equality: a resolved fid equal to the claimed one (zero
included) passes the response through unchanged, and any other resolved fid
flips `success` to false with the structured ownership error. -/
theorem fid_comparison_bigint_equality (resp : FidSiweResponse)
    (fv : Hex → Result JsError Int) (fid : Int)
    (h : fv resp.data.address = .ok fid) :
    (fid = resp.fid → verifyFidOwner resp fv = .ok resp) ∧
    (fid ≠ resp.fid → verifyFidOwner resp fv =
      .ok { resp with
            success := false,
            error := some { type := ownershipMsg resp.data.address resp.fid,
                            expected := some (toString resp.fid),
                            received := some (toString fid) } }) := by
  constructor
  · intro he
    unfold verifyFidOwner fromPromise
    simp [h, Result.andThen, he]
  · intro hne
    unfold verifyFidOwner fromPromise
    simp [h, Result.andThen, hne]

/-- C8 witness: claimed fid 0 with a resolver returning 0 is a valid match
(the response passes through unchanged, success intact), zero is not treated
as absent. -/
theorem fid_comparison_bigint_equality_witness :
    verifyFidOwner { success := true, error := none, data := sampleMessage, fid := 0 }
        (fun _ => .ok 0)
      = .ok { success := true, error := none, data := sampleMessage, fid := 0 } := by
  exact (fid_comparison_bigint_equality
    { success := true, error := none, data := sampleMessage, fid := 0 }
    (fun _ => .ok 0) 0 rfl).1 rfl

/-- C9: the default options record uses `voidVerifyFid`, an oracle that
always rejects with the "Not implemented" error, so a call of `verify`
without an explicit options argument can never return a success response. -/
theorem default_options_never_succeed {μ : Type} (validate : μ → ConnectResult SiweMessage)
    (siweVerify : SiweMessage → String → Option Provider → Result JsError SiweResponse)
    (nonce domain : String) (message : μ) (signature : String) :
    (∀ c : Hex, voidVerifyFid c = .err "Not implemented: Must provide an fid verifier") ∧
    (∀ r : VerifyResponse,
      verify validate siweVerify nonce domain message signature defaultSignInOpts ≠ .ok r) := by
  refine ⟨fun c => rfl, fun r h => ?_⟩
  rcases verify_ok_inv _ _ _ _ _ _ _ _ h with ⟨m, sr, s, f, -, -, -, -, -, -, hfid, -, -⟩
  simp [verifyFidOwner, fromPromise, defaultSignInOpts, voidVerifyFid, Result.andThen] at hfid

/-- C9 witness: on a run that would otherwise succeed, the default options
yield no success response. -/
theorem default_options_never_succeed_witness :
    voidVerifyFid "0xabc" = .err "Not implemented: Must provide an fid verifier" ∧
    verify idValidate okSiweVerify "n1" "example.com" sampleMessage "0xsig" defaultSignInOpts
      ≠ .ok { success := true, data := sampleMessage, fid := 42 } := by
  have h := default_options_never_succeed idValidate okSiweVerify "n1" "example.com"
    sampleMessage "0xsig"
  exact ⟨h.1 "0xabc", h.2 { success := true, data := sampleMessage, fid := 42 }⟩

/-- C10: every success response of `verify` keeps every field of the run's
final merged outcome except `error`: the outcome `f` is pinned by the run's
own deterministic chain (structural validation, nonce, domain, the SIWE
verification result, the resource merge, and the ownership check applied to
them), and the response agrees with that very `f` on the success flag
(necessarily true), the full SIWE data record and the fid; only the error
key is dropped. -/
theorem verify_preserves_fields_except_error {μ : Type}
    (validate : μ → ConnectResult SiweMessage)
    (siweVerify : SiweMessage → String → Option Provider → Result JsError SiweResponse)
    (nonce domain : String) (message : μ) (signature : String) (options : SignInOpts)
    (r : VerifyResponse)
    (h : verify validate siweVerify nonce domain message signature options = .ok r) :
    r.success = true ∧
    ∃ m sr s f, validate message = .ok m ∧ m.nonce = nonce ∧ m.domain = domain ∧
      siweVerify m signature options.provider = .ok sr ∧ mergeResources sr = .ok s ∧
      verifyFidOwner s options.getFid = .ok f ∧ f.success = true ∧
      r.success = f.success ∧ r.data = f.data ∧ r.fid = f.fid := by
  rcases verify_ok_inv _ _ _ _ _ _ _ _ h with ⟨m, sr, s, f, hv, hn, hd, hsv, hm, hs, hfid, hfs, rfl⟩
  exact ⟨hfs, m, sr, s, f, hv, hn, hd, hsv, hm, hfid, hfs, rfl, rfl, rfl⟩

/-- C10 witness: the concrete successful run keeps success flag, data and
fid of its own final outcome. -/
theorem verify_preserves_fields_except_error_witness :
    ({ success := true, data := sampleMessage, fid := 42 } : VerifyResponse).success = true ∧
    ∃ m sr s f, idValidate sampleMessage = .ok m ∧ m.nonce = "n1" ∧ m.domain = "example.com" ∧
      okSiweVerify m "0xsig" sampleOpts.provider = .ok sr ∧ mergeResources sr = .ok s ∧
      verifyFidOwner s sampleOpts.getFid = .ok f ∧ f.success = true ∧
      ({ success := true, data := sampleMessage, fid := 42 } : VerifyResponse).success = f.success ∧
      ({ success := true, data := sampleMessage, fid := 42 } : VerifyResponse).data = f.data ∧
      ({ success := true, data := sampleMessage, fid := 42 } : VerifyResponse).fid = f.fid := by
  exact verify_preserves_fields_except_error idValidate okSiweVerify "n1" "example.com"
    sampleMessage "0xsig" sampleOpts { success := true, data := sampleMessage, fid := 42 }
    (by decide)

end Connect
